import Mathlib

namespace EssenceMirror

/-! ## A small JSON model

Python `json.loads` produces nested dicts, lists, strings, numbers, booleans
and `None`; we model such values as `JValue`, with objects as ordered
association lists of string keys. -/

/-- A JSON value as produced by Python `json.loads`. -/
inductive JValue where
  | null
  | bool (b : Bool)
  | num (n : Int)
  | str (s : String)
  | arr (xs : List JValue)
  | obj (fields : List (String × JValue))
  deriving Repr

/-- Python `d[k]` on a JSON value: succeeds only on objects having the key
(first occurrence); indexing anything else with a string key, or a missing
key, raises — modelled as `none`. -/
def JValue.lookup : JValue → String → Option JValue
  | .obj fields, k => fields.lookup k
  | _, _ => none

/-- Is this value a string equal to `k`?  (Python `elem == k` for a string
`k`: false on every non-string element.) -/
def JValue.eqStr : JValue → String → Bool
  | .str s, k => s == k
  | _, _ => false

/-- Test `isPrefixChars needle hay` : does `hay` start with `needle`? -/
def isPrefixChars : List Char → List Char → Bool
  | [], _ => true
  | _ :: _, [] => false
  | a :: as, b :: bs => a == b && isPrefixChars as bs

/-- Containment `containsSub needle hay` : Python `needle in hay` on strings,
as substring containment over character lists. -/
def containsSub (needle : List Char) (hay : List Char) : Bool :=
  match hay with
  | [] => isPrefixChars needle []
  | _ :: rest => isPrefixChars needle hay || containsSub needle rest

/-- Python `k in v` for a string key `k`: key test on dicts, substring test
on strings, membership test on arrays; raises (`none`) on the other types. -/
def JValue.hasKey : JValue → String → Option Bool
  | .obj fields, k => some (fields.any (fun p => p.1 == k))
  | .str s, k => some (containsSub k.data s.data)
  | .arr xs, k => some (xs.any (fun x => x.eqStr k))
  | _, _ => none

/-- Python `isinstance(v, dict)`. -/
def JValue.isObj : JValue → Bool
  | .obj _ => true
  | _ => false

/-! ## Session state and the new-image reset (`app.py`, `main`)

`main` keeps the analysis artefacts in `st.session_state`; when a file is
uploaded it computes `hashlib.md5(file_bytes).hexdigest()[:8]` and, only when
that hash differs from `current_image_hash`, clears every dependent field. -/

/-- The `st.session_state` fields that `main` manages for an uploaded image. -/
structure SessionState where
  analysis_complete : Bool
  profile_data : Option JValue
  recommendations_generated : Bool
  recommendations_data : Option JValue
  collage_data : Option JValue
  video_generated : Bool
  video_url : Option String
  current_image_hash : Option String
  s3_key : Option String

/-- The new-image check in `main` (app.py): compute the image hash of the
uploaded bytes and, if it differs from `st.session_state.current_image_hash`,
reset all analysis data; otherwise leave the state untouched.  `md5hex8`
abstracts `hashlib.md5(file_bytes).hexdigest()[:8]`. -/
def handleUpload (md5hex8 : List Nat → String) (st : SessionState)
    (file_bytes : List Nat) : SessionState :=
  let image_hash := md5hex8 file_bytes
  if st.current_image_hash ≠ some image_hash then
    { st with
      current_image_hash := some image_hash
      analysis_complete := false
      profile_data := none
      recommendations_generated := false
      recommendations_data := none
      collage_data := none
      video_generated := false
      video_url := none }
  else
    st

/-! ## Media upload gateway (`upload_image_to_s3`, app.py / essence_mirror_app.py)

Both copies build an S3 key from a timestamp, a uuid fragment and the file's
extension and upload the raw stream; exceptions yield `None` with nothing
stored.  Neither copy inspects the bytes. -/

/-- A Streamlit `UploadedFile`: name, raw bytes, and MIME type. -/
structure UploadedFile where
  name : String
  bytes : List Nat
  mime : String

/-- An object as stored in the S3 bucket. -/
structure S3Object where
  key : String
  bytes : List Nat
  contentType : String

/-- Python `s.split(c)` over character lists (preserving empty pieces). -/
def splitOnChar (c : Char) : List Char → List (List Char)
  | [] => [[]]
  | a :: rest =>
    if a == c then [] :: splitOnChar c rest
    else
      match splitOnChar c rest with
      | [] => [[a]]
      | w :: ws => (a :: w) :: ws

/-- Python `name.split('.')[-1]`. -/
def lastExtension (name : String) : String :=
  ⟨(splitOnChar '.' name.data).getLastD []⟩

/-- Function `upload_image_to_s3` (identical in app.py and essence_mirror_app.py):
builds `uploads/streamlit_{timestamp}_{uuid8}.{ext}` where `ext` is the last
`'.'`-separated component of the file name, uploads the file object, and
returns the key; any exception (modelled by `s3_fails`) is caught, yielding
`none` with nothing stored.  `timestamp` and `uuid8` abstract
`datetime.now().strftime(...)` and `uuid.uuid4().hex[:8]`.  The second
component is the list of objects written to the bucket. -/
def upload_image_to_s3 (timestamp uuid8 : String) (s3_fails : Bool)
    (f : UploadedFile) : Option String × List S3Object :=
  let file_extension := lastExtension f.name
  let s3_key := "uploads/streamlit_" ++ timestamp ++ "_" ++ uuid8 ++ "." ++ file_extension
  if s3_fails then
    (none, [])
  else
    (some s3_key, [{ key := s3_key, bytes := f.bytes, contentType := f.mime }])

/-- Modelled from the spec: the repository never decodes the uploaded bytes
itself (decoding is PIL's job, outside src/), so we model "decodes as a
raster image in one of the supported formats" (png/jpg/jpeg per the
uploader's `type` filter) by the necessary condition that any PNG stream
starts with the 8-byte PNG signature and any JPEG stream starts with the
SOI marker `FF D8`. -/
def decodes_as_supported_image (bytes : List Nat) : Bool :=
  isPrefixNat [137, 80, 78, 71, 13, 10, 26, 10] bytes || isPrefixNat [255, 216] bytes
where
  isPrefixNat : List Nat → List Nat → Bool
    | [], _ => true
    | _ :: _, [] => false
    | a :: as, b :: bs => a == b && isPrefixNat as bs

/-! ## Conversational agent proxy (`invoke_bedrock_agent`)

Identical in app.py and essence_mirror_app.py: iterates the streamed
`completion` events, concatenating `event['chunk']['bytes'].decode('utf-8')`
for every chunk-bearing event; any exception — before, during or after some
chunks arrived — is caught and `None` is returned. -/

/-- One event of the agent's streamed `completion`: a chunk carrying decoded
UTF-8 text (possibly empty), a chunk without a `bytes` field, or a non-chunk
event. -/
inductive AgentEvent where
  | chunk (payload : String)
  | chunkNoBytes
  | other

/-- The text contributed by one event: chunk payload, or nothing. -/
def AgentEvent.payloadOf : AgentEvent → String
  | .chunk s => s
  | .chunkNoBytes => ""
  | .other => ""

/-- The loop body of `invoke_bedrock_agent`: fold over the streamed items,
accumulating chunk text; an item that raises (`Except.error`) aborts the
loop, and the surrounding `except` discards everything accumulated so far
and returns `None`. -/
def runCompletion (items : List (Except String AgentEvent)) (acc : String) :
    Option String :=
  match items with
  | [] => some acc
  | .error _ :: _ => none
  | .ok e :: rest => runCompletion rest (acc ++ e.payloadOf)

/-- The concatenation, in arrival order, of the text payloads of a list of
streamed events. -/
def concatPayloads : List AgentEvent → String
  | [] => ""
  | e :: rest => e.payloadOf ++ concatPayloads rest

/-- Function `invoke_bedrock_agent`: the streamed completion is a sequence of items,
each either an event or an exception raised at that point of the iteration
(a failing initial `invoke_agent` call is the stream that raises first);
returns the full concatenation on success and `None` on any failure. -/
def invoke_bedrock_agent (items : List (Except String AgentEvent)) : Option String :=
  runCompletion items ""

/-! ## Video job tracker (`TrueImageToVideoGenerator.check_job_status` and
`check_video_status`)

`check_job_status` polls `bedrock.get_async_invoke(invocationArn=job_id)` and
maps the remote response to a local result dict; an exception from the call
is caught and mapped to status `"ERROR"`.  `check_video_status`
(true_image_video_component.py) maps that result onto the job record. -/

/-- The fields of a `get_async_invoke` response that `check_job_status`
reads: `response.get("status")`, the output `s3Uri` (absent models a missing
`outputDataConfig` path, whose access would raise `KeyError`), and
`response.get("failureMessage")`. -/
structure AsyncInvokeResponse where
  status : Option String
  s3Uri : Option String
  failureMessage : Option String

/-- The dict returned by `check_job_status`. -/
structure JobStatusResult where
  job_id : String
  status : Option String
  video_url : Option String
  message : Option String
  deriving Repr, DecidableEq

/-- A call the tracker could make against the remote service; polling must
only ever perform `getAsyncInvoke`, never a new `startAsyncInvoke`. -/
inductive RemoteCall where
  | getAsyncInvoke (arn : String)
  | startAsyncInvoke
  deriving Repr, DecidableEq

/-- Python `job_id.split('/')[-1]`. -/
def jobFolder (job_id : String) : String :=
  (job_id.splitOn "/").getLastD ""

/-- Method `TrueImageToVideoGenerator.check_job_status`: queries the job status
(`remote` is the outcome of `get_async_invoke`: a response, or the message
of a raised exception) and returns the status dict together with the trace
of remote calls performed.  All exceptions — from the call itself or from a
missing `outputDataConfig` path — are caught and turned into an `"ERROR"`
result rather than propagated. -/
def check_job_status (job_id : String)
    (remote : Except String AsyncInvokeResponse) :
    JobStatusResult × List RemoteCall :=
  let trace := [RemoteCall.getAsyncInvoke job_id]
  match remote with
  | .error e =>
      ({ job_id := job_id, status := some "ERROR", video_url := none,
         message := some ("Error checking job status: " ++ e) }, trace)
  | .ok response =>
      if response.status = some "Completed" then
        match response.s3Uri with
        | none =>
            ({ job_id := job_id, status := some "ERROR", video_url := none,
               message := some "Error checking job status: KeyError" }, trace)
        | some s3_uri =>
            ({ job_id := job_id, status := some "Completed",
               video_url := some (s3_uri ++ "/" ++ jobFolder job_id ++ "/output.mp4"),
               message := some "Personalized video generation completed successfully" },
             trace)
      else if response.status = some "Failed" then
        ({ job_id := job_id, status := some "Failed", video_url := none,
           message := some (response.failureMessage.getD
             "Personalized video generation failed") }, trace)
      else
        ({ job_id := job_id, status := response.status, video_url := none,
           message := some "Personalized video generation in progress" }, trace)

/-- The job record maintained by `check_video_status`. -/
structure JobInfo where
  videoJobId : String
  status : String
  videoUrl : Option String
  errorMessage : Option String

/-- Function `check_video_status` (true_image_video_component.py): polls via
`check_job_status` and maps the result onto the job record: `"Completed"` →
`VIDEO_GENERATED` with the derived url, `"Failed"` → `VIDEO_GENERATION_FAILED`
with the carried message, anything else → `VIDEO_GENERATION_IN_PROGRESS`;
an exception raised by its own body (generator construction, modelled by
`init_error`) yields the `ERROR` status with the message. -/
def check_video_status (init_error : Option String) (job_info : JobInfo)
    (remote : Except String AsyncInvokeResponse) : JobInfo :=
  match init_error with
  | some e => { job_info with status := "ERROR", errorMessage := some e }
  | none =>
    let status_result := (check_job_status job_info.videoJobId remote).1
    if status_result.status = some "Completed" then
      { job_info with status := "VIDEO_GENERATED", videoUrl := status_result.video_url }
    else if status_result.status = some "Failed" then
      { job_info with
          status := "VIDEO_GENERATION_FAILED"
          errorMessage := some (status_result.message.getD "Unknown failure") }
    else
      { job_info with status := "VIDEO_GENERATION_IN_PROGRESS" }

/-- Performs `n` successive polls of the same handle while the remote state stays
fixed (the remote answer to `get_async_invoke` is the same each time): the
list of the `n` results with their call traces. -/
def pollRepeatedly (n : Nat) (job_id : String)
    (remote : Except String AsyncInvokeResponse) :
    List (JobStatusResult × List RemoteCall) :=
  match n with
  | 0 => []
  | n + 1 => check_job_status job_id remote :: pollRepeatedly n job_id remote

/-! ## Narrative-to-profile heuristic (`parse_analysis_text`, app.py)

Turns the analysis narrative into a structured profile.  All detection is by
Python `word in text_lower` — substring containment on the lowercased
narrative — and each indicator word contributes at most 1 to its count
(`sum(1 for word in indicators if word in text_lower)` counts the indicator
words present, not their occurrences). -/

/-- Python `analysis_text.lower()` as a character list (ASCII lowering, which
matches Python `str.lower` on the ASCII narratives and indicators involved). -/
def lowerChars (s : String) : List Char :=
  s.data.map Char.toLower

/-- Python `word in text_lower`. -/
def wordIn (w : String) (text_lower : List Char) : Bool :=
  containsSub w.data text_lower

/-- Python `sum(1 for word in ws if word in text_lower)`:
the number of words of `ws` occurring as substrings of the text. -/
def countIndicators (ws : List String) (text_lower : List Char) : Nat :=
  (ws.filter (fun w => wordIn w text_lower)).length

/-- Python `any(word in text_lower for word in ws)`. -/
def anyWordIn (ws : List String) (text_lower : List Char) : Bool :=
  ws.any (fun w => wordIn w text_lower)

def male_indicators : List String :=
  ["boy", "man", "male", "masculine", "him", "his", "he", "gentleman", "guy"]

def female_indicators : List String :=
  ["girl", "woman", "female", "feminine", "her", "hers", "she", "lady", "gal",
   "pregnant", "pregnancy"]

def youth_indicators : List String :=
  ["child", "kid", "young", "youth", "teen", "adolescent", "boy", "girl",
   "student", "school"]

def adult_indicators : List String :=
  ["adult", "professional", "mature", "woman", "man", "pregnant", "mother",
   "father"]

def athletic_words : List String :=
  ["athletic", "sport", "active", "fitness", "gym", "soccer", "football",
   "basketball", "running"]

def casual_words : List String :=
  ["casual", "relaxed", "everyday", "comfortable"]

def formal_words : List String :=
  ["formal", "professional", "business", "work", "office"]

def creative_words : List String :=
  ["creative", "artistic", "expressive", "unique", "individual"]

def maternity_words : List String :=
  ["pregnant", "pregnancy", "expecting", "maternity"]

/-- The gender detection block of `parse_analysis_text`. -/
def detectGender (text_lower : List Char) : String :=
  let male_count := countIndicators male_indicators text_lower
  let female_count := countIndicators female_indicators text_lower
  if male_count > female_count then "male"
  else if female_count > male_count then "female"
  else "unspecified"

/-- The age-group detection block of `parse_analysis_text`. -/
def detectAgeGroup (text_lower : List Char) : String :=
  let youth_count := countIndicators youth_indicators text_lower
  let adult_count := countIndicators adult_indicators text_lower
  if youth_count > adult_count then "youth" else "adult"

/-- The style-category detection chain of `parse_analysis_text`
(default `"general"` when nothing matches). -/
def detectStyleCategory (text_lower : List Char) : String :=
  if anyWordIn athletic_words text_lower then "athletic"
  else if anyWordIn casual_words text_lower then "casual"
  else if anyWordIn formal_words text_lower then "professional"
  else if anyWordIn creative_words text_lower then "creative"
  else "general"

/-- The archetype extraction chain of `parse_analysis_text`: given the
detected gender, age group and style category, produce the archetype, the
visual style, the energetic essence and the (possibly overwritten, for
maternity) final style category. -/
def archetypeFor (text_lower : List Char)
    (gender age_group style_category : String) :
    String × List String × List String × String :=
  if age_group = "youth" ∧ style_category = "athletic" then
    if gender = "male" then
      ("Young Athletic Boy", ["Sporty", "Active", "Comfortable", "Youthful"],
       ["Energetic", "Playful", "Active", "Confident"], style_category)
    else if gender = "female" then
      ("Young Athletic Girl", ["Sporty", "Active", "Comfortable", "Youthful"],
       ["Energetic", "Playful", "Active", "Confident"], style_category)
    else
      ("Young Athlete", ["Sporty", "Active", "Comfortable"],
       ["Energetic", "Playful", "Active", "Confident"], style_category)
  else if gender = "female" ∧ anyWordIn maternity_words text_lower then
    ("Expecting Mother", ["Comfortable", "Adaptable", "Feminine", "Practical"],
     ["Nurturing", "Glowing", "Anticipatory", "Graceful"], "maternity")
  else if style_category = "athletic" then
    if gender = "male" then
      ("Athletic Professional (Male)",
       ["Performance-focused", "Modern", "Functional", "Masculine"],
       ["Dynamic", "Health-conscious", "Active"], style_category)
    else if gender = "female" then
      ("Athletic Professional (Female)",
       ["Performance-focused", "Modern", "Functional", "Feminine"],
       ["Dynamic", "Health-conscious", "Active"], style_category)
    else
      ("Athletic Professional", ["Performance-focused", "Modern", "Functional"],
       ["Dynamic", "Health-conscious", "Active"], style_category)
  else if style_category = "creative" then
    ("Creative Individual", ["Artistic", "Expressive", "Contemporary"],
     ["Innovative", "Authentic", "Confident"], style_category)
  else
    if age_group = "youth" then
      ("Young Individual", ["Youthful", "Casual", "Comfortable"],
       ["Energetic", "Playful", "Authentic"], style_category)
    else if gender = "male" then
      ("Modern Man", ["Contemporary", "Versatile", "Masculine"],
       ["Confident", "Authentic", "Grounded"], style_category)
    else if gender = "female" then
      ("Modern Woman", ["Contemporary", "Versatile", "Feminine"],
       ["Confident", "Authentic", "Elegant"], style_category)
    else
      ("Modern Individual", ["Contemporary", "Versatile"],
       ["Confident", "Authentic"], style_category)

/-- The structured profile built by `parse_analysis_text`. -/
structure Profile where
  archetype : String
  visual_style : List String
  energetic_essence : List String
  age_group : String
  style_category : String
  gender : String
  detailed_analysis : String

/-- Function `parse_analysis_text` (app.py): the body of the `try` block, which is
total on strings — lowercasing, substring tests and comparisons cannot
raise — so the function itself, not just its `except` fallback, returns a
profile for every narrative. -/
def parse_analysis_text (analysis_text : String) : Profile :=
  let text_lower := lowerChars analysis_text
  let gender := detectGender text_lower
  let age_group := detectAgeGroup text_lower
  let style_category := detectStyleCategory text_lower
  let a := archetypeFor text_lower gender age_group style_category
  { archetype := a.1
    visual_style := a.2.1
    energetic_essence := a.2.2.1
    age_group := age_group
    style_category := a.2.2.2
    gender := gender
    detailed_analysis := analysis_text }

/-- The dict returned by the `except` branch of `parse_analysis_text`
(it carries no `style_category` key). -/
structure FallbackProfile where
  archetype : String
  visual_style : List String
  energetic_essence : List String
  gender : String
  age_group : String
  detailed_analysis : String

/-- The fixed fallback profile of `parse_analysis_text`'s `except` branch:
everything is constant except the narrative, which is stored verbatim. -/
def parse_analysis_fallback (analysis_text : String) : FallbackProfile :=
  { archetype := "Style Enthusiast"
    visual_style := ["Contemporary"]
    energetic_essence := ["Confident"]
    gender := "unspecified"
    age_group := "adult"
    detailed_analysis := analysis_text }

/-- Modelled from the spec: "count occurrences (case-insensitive,
word-boundary) of a fixed male-indicator word list vs a fixed
female-indicator word list".  The narrative is lowercased and split into
maximal alphanumeric words, and each word equal to an indicator counts as
one occurrence.  (The repository itself never performs word-boundary
matching; this definition exists to state the claim's counting rule.) -/
def spec_word_boundary_count (ws : List String) (text : String) : Nat :=
  (splitWords (lowerChars text)).countP (fun w => ws.any (fun ind => ind.data == w))
where
  splitWords : List Char → List (List Char)
    | [] => []
    | c :: rest =>
      if c.isAlphanum then
        match splitWords rest with
        | [] => [[c]]
        | w :: ws' =>
          match rest with
          | [] => [[c]]
          | d :: _ => if d.isAlphanum then (c :: w) :: ws' else [c] :: w :: ws'
      else splitWords rest

/-! ## Voice session (`NovaSonicStyleGenerator`, nova_sonic_style_generator.py)

The generator keeps `is_active`, the bidirectional stream, and two asyncio
queues.  `send_event` serialises an event and sends it on the stream,
catching every exception and returning `False`; `send_text_message` makes
three `send_event` calls (whose results it ignores) and returns `True`;
`end_session` clears `is_active`, flushes the closing events and closes the
stream; `get_response`/`get_audio_response` pop from the queues, returning
`None` on timeout. -/

/-- An event sent over the bidirectional stream. -/
inductive SonicEvent where
  | contentStart
  | textInput (content : String)
  | contentEnd
  | promptEnd
  | sessionEnd
  | audioContentStart
  | audioInput (content : List Nat)
  | audioContentEnd
  deriving Repr, DecidableEq

/-- The state of a `NovaSonicStyleGenerator`: the `is_active` flag, whether
the stream is still open (sending on a closed or absent stream raises inside
`send_event`), the events actually transmitted over the transport, the
`_audio_started` attribute, and the two response queues. -/
structure SonicState where
  is_active : Bool
  stream_open : Bool
  transmitted : List SonicEvent
  audio_started : Bool
  response_queue : List String
  audio_queue : List (List Nat)
  deriving Repr, DecidableEq

/-- Method `send_event`: sends the event on the stream; on an open stream the event
is transmitted and `True` returned, while a raise (closed stream) is caught
and `False` returned with nothing transmitted. -/
def send_event (st : SonicState) (e : SonicEvent) : Bool × SonicState :=
  if st.stream_open then (true, { st with transmitted := st.transmitted ++ [e] })
  else (false, st)

/-- Method `send_text_message`: sends contentStart, textInput and contentEnd via
`send_event`, ignoring their boolean results; its own `try` body cannot
raise (every `send_event` catches internally), so it returns `True`
unconditionally — there is no check of `is_active` or of the stream. -/
def send_text_message (st : SonicState) (message : String) : Bool × SonicState :=
  let r1 := send_event st .contentStart
  let r2 := send_event r1.2 (.textInput message)
  let r3 := send_event r2.2 .contentEnd
  (true, r3.2)

/-- Method `end_audio_input`: if audio content was started, send its contentEnd and
clear `_audio_started`; returns `True`. -/
def end_audio_input (st : SonicState) : Bool × SonicState :=
  if st.audio_started then
    let r := send_event st .audioContentEnd
    (true, { r.2 with audio_started := false })
  else (true, st)

/-- Method `end_session`: no-op when already inactive; otherwise clears
`is_active`, ends any audio input, sends promptEnd and sessionEnd, and
closes the stream. -/
def end_session (st : SonicState) : SonicState :=
  if st.is_active = false then st
  else
    let st1 := { st with is_active := false }
    let st2 := (end_audio_input st1).2
    let st3 := (send_event st2 .promptEnd).2
    let st4 := (send_event st3 .sessionEnd).2
    { st4 with stream_open := false }

/-- Method `get_response`: pop the next queued text response; an empty queue models
the `asyncio.TimeoutError` path, which returns `None`. -/
def get_response (st : SonicState) : Option String × SonicState :=
  match st.response_queue with
  | [] => (none, st)
  | x :: rest => (some x, { st with response_queue := rest })

/-- Method `get_audio_response`: pop the next queued audio response, `None` on
timeout. -/
def get_audio_response (st : SonicState) : Option (List Nat) × SonicState :=
  match st.audio_queue with
  | [] => (none, st)
  | x :: rest => (some x, { st with audio_queue := rest })

/-- A freshly started session: active, stream open, nothing yet sent. -/
def liveSession : SonicState :=
  { is_active := true, stream_open := true, transmitted := [],
    audio_started := false, response_queue := [], audio_queue := [] }

/-! ## Action invoker (`generate_recommendations_direct`,
`generate_style_collage`, app.py)

Both build a Lambda event, call `clients['lambda'].invoke`, `json.loads` the
payload, and unwrap `response.responseBody`.  We embed the unwrapping: the
function takes the decoded payload (a `JValue`) plus `parse`, the
`json.loads` used on the `application/json` body string (`none` = raise).
Every raise inside is caught by the outer `except`, which surfaces a generic
error and returns `None`; `st.error` calls are recorded as `Surfaced`
values. -/

/-- An error surfaced to the user via `st.error`. -/
inductive Surfaced where
  | remoteError (v : JValue)
  | lambdaError (v : JValue)
  | exception
  deriving Repr

/-- Result of `generate_recommendations_direct`: the returned value (the
recommendations, or `None`) and the errors surfaced on the way. -/
structure InvokeResult where
  ret : Option JValue
  surfaced : List Surfaced
  deriving Repr

/-- The fall-through tail of `generate_recommendations_direct`: the
`'errorMessage' in response_payload` check and the final `return None`. -/
def recsTail (payload : JValue) : Option InvokeResult := do
  let hasEM ← payload.hasKey "errorMessage"
  if hasEM then
    let em ← payload.lookup "errorMessage"
    pure { ret := none, surfaced := [.lambdaError em] }
  else
    pure { ret := none, surfaced := [] }

/-- The `try` body of `generate_recommendations_direct` after the Lambda
call: unwrap the envelope; a direct `recommendations` key returns them, an
`application/json` body string is parsed and checked for `recommendations`
then `error`; anything that falls through reaches the `errorMessage` tail.
`none` models an uncaught raise inside the body. -/
def recsTry (parse : String → Option JValue) (payload : JValue) :
    Option InvokeResult := do
  let hasResponse ← payload.hasKey "response"
  let shaped ← (if hasResponse then do
      let resp ← payload.lookup "response"
      let hasRB ← resp.hasKey "responseBody"
      pure (if hasRB then some resp else none)
    else pure none)
  match shaped with
  | none => recsTail payload
  | some resp => do
    let response_body ← resp.lookup "responseBody"
    let hasRecs ← response_body.hasKey "recommendations"
    if hasRecs then
      let recs ← response_body.lookup "recommendations"
      pure { ret := some recs, surfaced := [] }
    else
      let hasAJ ← response_body.hasKey "application/json"
      if hasAJ then
        let aj ← response_body.lookup "application/json"
        let bodyv ← aj.lookup "body"
        let bodyStr ← (match bodyv with | .str s => some s | _ => none)
        let body_content ← parse bodyStr
        let hasRecs2 ← body_content.hasKey "recommendations"
        if hasRecs2 then
          let recs ← body_content.lookup "recommendations"
          pure { ret := some recs, surfaced := [] }
        else
          let hasErr ← body_content.hasKey "error"
          if hasErr then
            let ev ← body_content.lookup "error"
            pure { ret := none, surfaced := [.remoteError ev] }
          else
            recsTail payload
      else
        recsTail payload

/-- Function `generate_recommendations_direct` (app.py): the `try` body with the
outer `except`, which surfaces a generic exception message and returns
`None`. -/
def generate_recommendations_direct (parse : String → Option JValue)
    (payload : JValue) : InvokeResult :=
  match recsTry parse payload with
  | some r => r
  | none => { ret := none, surfaced := [.exception] }

/-- The `result` dict assembled by `generate_style_collage` from
`collage_url`, `collage_base64` and `prompt_used`. -/
structure CollageResult where
  url : Option JValue
  base64 : Option JValue
  prompt_used : Option JValue
  deriving Repr

/-- Result of `generate_style_collage`: the returned collage dict (or
`None`) and the surfaced errors. -/
structure CollageInvokeResult where
  ret : Option CollageResult
  surfaced : List Surfaced
  deriving Repr

/-- The `try` body of `generate_style_collage` after the Lambda call.  Note
the unwrapping order of the source: `isinstance(response_body, dict)` is
checked FIRST, so a dict-shaped `responseBody` is always taken as the body
itself and the `'application/json' in response_body` branch is reachable
only for non-dict bodies; the final `else` takes any other body directly. -/
def collageTry (parse : String → Option JValue) (payload : JValue) :
    Option CollageInvokeResult := do
  let hasResponse ← payload.hasKey "response"
  let shaped ← (if hasResponse then do
      let resp ← payload.lookup "response"
      let hasRB ← resp.hasKey "responseBody"
      pure (if hasRB then some resp else none)
    else pure none)
  match shaped with
  | none => pure { ret := none, surfaced := [] }
  | some resp => do
    let response_body ← resp.lookup "responseBody"
    let body_content ← (if response_body.isObj then pure response_body
      else do
        let hasAJ ← response_body.hasKey "application/json"
        if hasAJ then
          let aj ← response_body.lookup "application/json"
          let bodyv ← aj.lookup "body"
          let bodyStr ← (match bodyv with | .str s => some s | _ => none)
          parse bodyStr
        else
          pure response_body)
    let hasUrl ← body_content.hasKey "collage_url"
    let url ← (if hasUrl then do
        let v ← body_content.lookup "collage_url"
        pure (some v)
      else pure none)
    let hasB64 ← body_content.hasKey "collage_base64"
    let b64 ← (if hasB64 then do
        let v ← body_content.lookup "collage_base64"
        pure (some v)
      else pure none)
    let hasPrompt ← body_content.hasKey "prompt_used"
    let pu ← (if hasPrompt then do
        let v ← body_content.lookup "prompt_used"
        pure (some v)
      else pure none)
    if hasUrl || hasB64 || hasPrompt then
      pure { ret := some { url := url, base64 := b64, prompt_used := pu },
             surfaced := [] }
    else
      let hasErr ← body_content.hasKey "error"
      if hasErr then
        let ev ← body_content.lookup "error"
        pure { ret := none, surfaced := [.remoteError ev] }
      else
        pure { ret := none, surfaced := [] }

/-- Function `generate_style_collage` (app.py): the `try` body with the outer
`except`. -/
def generate_style_collage (parse : String → Option JValue)
    (payload : JValue) : CollageInvokeResult :=
  match collageTry parse payload with
  | some r => r
  | none => { ret := none, surfaced := [.exception] }


/-! ## Concrete payloads used by the counterexamples and witnesses -/

/-- A byte stream that is not a decodable raster image (it starts with
neither the PNG signature nor the JPEG SOI marker), uploaded under a
`.png` name. -/
def bogus_upload : UploadedFile :=
  { name := "notes.png", bytes := [0, 1, 2, 3], mime := "image/png" }

/-- A concrete `json.loads` for the collage body string used below. -/
def collage_parse_example : String → Option JValue :=
  fun t =>
    if t = "\x7b\"collage_url\": \"https://x/c.png\"\x7d" then
      some (.obj [("collage_url", .str "https://x/c.png")])
    else none

/-- The `responseBody.application/json.body` JSON-string envelope around a
collage body. -/
def collage_json_envelope : JValue :=
  .obj [("response", .obj [("responseBody",
    .obj [("application/json",
      .obj [("body", .str "\x7b\"collage_url\": \"https://x/c.png\"\x7d")])])])]

/-- The direct-dict envelope around the same collage body. -/
def collage_direct_envelope : JValue :=
  .obj [("response", .obj [("responseBody",
    .obj [("collage_url", .str "https://x/c.png")])])]

/-- The payload of example scenario 3: the unwrapped body is the direct dict
shape and carries an `error` key. -/
def error_direct_envelope : JValue :=
  .obj [("response", .obj [("responseBody",
    .obj [("error", .str "model unavailable")])])]

/-- A concrete `json.loads` for the witness of the amended envelope claims:
one body string decodes to recommendations, another to a collage body, a
third to an error body. -/
def witness_parse : String → Option JValue :=
  fun t =>
    if t = "rbody" then some (.obj [("recommendations", .arr [.str "linen blazer"])])
    else if t = "cbody" then some (.obj [("collage_url", .str "https://x/c.png")])
    else if t = "ebody" then some (.obj [("error", .str "model unavailable")])
    else none

/-- A session state holding a full set of analysis artefacts for the stored
image hash "h0". -/
def populatedSession : SessionState :=
  { analysis_complete := true
    profile_data := some (.obj [("archetype", .str "Modern Man")])
    recommendations_generated := true
    recommendations_data := some (.arr [.str "linen blazer"])
    collage_data := some (.obj [("url", .str "https://x/c.png")])
    video_generated := true
    video_url := some "https://x/v.mp4"
    current_image_hash := some "h0"
    s3_key := some "uploads/streamlit_x.png" }

/-- A job record for the tracker witnesses. -/
def witnessJob : JobInfo :=
  { videoJobId := "arn:aws:bedrock:us-east-1:1:async-invoke/abc123"
    status := "VIDEO_GENERATION_STARTED"
    videoUrl := none
    errorMessage := none }

end EssenceMirror

namespace EssenceMirror

/-! ## Helper lemmas -/

/-- A stream of plain events never aborts: the loop returns the accumulator
followed by the concatenated payloads. -/
theorem runCompletion_ok_append (events : List AgentEvent) (acc : String) :
    runCompletion (events.map Except.ok) acc = some (acc ++ concatPayloads events) := by
  induction events generalizing acc with
  | nil => simp [runCompletion, concatPayloads]
  | cons e rest ih =>
      simp [runCompletion, concatPayloads, ih, String.append_assoc]

/-- A stream that raises at any point makes the loop abort with `none`,
whatever was accumulated before. -/
theorem runCompletion_err (events : List AgentEvent)
    (rest : List (Except String AgentEvent)) (e : String) (acc : String) :
    runCompletion (events.map Except.ok ++ Except.error e :: rest) acc = none := by
  induction events generalizing acc with
  | nil => simp [runCompletion]
  | cons ev evs ih => simp [runCompletion, ih]

end EssenceMirror

namespace EssenceMirror

/-! ## Claim theorems -/

/-- C5 (counterexample): a byte stream that does not decode as a raster
image in any supported format is nevertheless uploaded: the gateway returns
a key and an object is stored, refuting "fails with InvalidImage and
uploads nothing ... an object is stored only for byte streams that validate
as decodable images". -/
theorem C5_invalid_image_uploaded_counterexample :
    decodes_as_supported_image bogus_upload.bytes = false ∧
    (upload_image_to_s3 "20250101_120000" "0a1b2c3d" false bogus_upload).1 =
      some "uploads/streamlit_20250101_120000_0a1b2c3d.png" ∧
    (upload_image_to_s3 "20250101_120000" "0a1b2c3d" false bogus_upload).2 ≠ [] :=
  ⟨rfl, rfl, List.cons_ne_nil _ _⟩

/-- C5 (amended): the media upload gateway performs no image-decoding
validation at all: every uploaded byte stream is stored under a key derived
from the timestamp, the uuid fragment and the file-name extension, whether
or not it decodes as an image; `None` with nothing stored happens only when
the storage call itself raises. -/
theorem C5_upload_no_validation_amended (timestamp uuid8 : String) (f : UploadedFile) :
    upload_image_to_s3 timestamp uuid8 false f =
      (some ("uploads/streamlit_" ++ timestamp ++ "_" ++ uuid8 ++ "." ++
          lastExtension f.name),
       [{ key := "uploads/streamlit_" ++ timestamp ++ "_" ++ uuid8 ++ "." ++
            lastExtension f.name
          bytes := f.bytes
          contentType := f.mime }]) ∧
    upload_image_to_s3 timestamp uuid8 true f = (none, []) :=
  ⟨rfl, rfl⟩

/-- C7: the narrative-to-profile heuristic is a total function of the
narrative (nothing in its body can raise on a string, as witnessed by this
total embedding), the input narrative is preserved verbatim in the
`detailed_analysis` field, and the `except` branch returns the fixed
fallback profile with archetype "Style Enthusiast", generic tags, and the
narrative again preserved verbatim. -/
theorem C7_parse_total_and_fallback (analysis_text : String) :
    (parse_analysis_text analysis_text).detailed_analysis = analysis_text ∧
    parse_analysis_fallback analysis_text =
      { archetype := "Style Enthusiast"
        visual_style := ["Contemporary"]
        energetic_essence := ["Confident"]
        gender := "unspecified"
        age_group := "adult"
        detailed_analysis := analysis_text } :=
  ⟨rfl, rfl⟩

/-- C8: on a stream that yields its events without raising, the agent proxy
returns exactly the concatenation, in arrival order, of the chunk payloads
(zero-byte chunks contribute nothing); on a stream that raises at any point
— even after some chunks arrived — it returns `None`, never a truncated
string. -/
theorem C8_agent_stream_concat (events : List AgentEvent)
    (rest : List (Except String AgentEvent)) (e : String) :
    invoke_bedrock_agent (events.map Except.ok) = some (concatPayloads events) ∧
    invoke_bedrock_agent (events.map Except.ok ++ Except.error e :: rest) = none := by
  constructor
  · simpa using runCompletion_ok_append events ""
  · exact runCompletion_err events rest e ""

/-- C10: re-uploading bytes whose hash equals the stored `current_image_hash`
leaves the whole session state unchanged; an upload with a different hash
clears `analysis_complete`, `profile_data`, `recommendations_generated`,
`recommendations_data`, `collage_data`, `video_generated` and `video_url`,
records the new hash, and touches nothing else (`s3_key` preserved). -/
theorem C10_hash_gate (md5hex8 : List Nat → String) (st : SessionState)
    (file_bytes : List Nat) :
    (st.current_image_hash = some (md5hex8 file_bytes) →
      handleUpload md5hex8 st file_bytes = st) ∧
    (st.current_image_hash ≠ some (md5hex8 file_bytes) →
      (handleUpload md5hex8 st file_bytes).analysis_complete = false ∧
      (handleUpload md5hex8 st file_bytes).profile_data = none ∧
      (handleUpload md5hex8 st file_bytes).recommendations_generated = false ∧
      (handleUpload md5hex8 st file_bytes).recommendations_data = none ∧
      (handleUpload md5hex8 st file_bytes).collage_data = none ∧
      (handleUpload md5hex8 st file_bytes).video_generated = false ∧
      (handleUpload md5hex8 st file_bytes).video_url = none ∧
      (handleUpload md5hex8 st file_bytes).current_image_hash =
        some (md5hex8 file_bytes) ∧
      (handleUpload md5hex8 st file_bytes).s3_key = st.s3_key) := by
  constructor
  · intro h
    simp [handleUpload, h]
  · intro h
    simp [handleUpload, h]

/-- Witness for C10: with the hash function returning the stored "h0" the
populated session survives an upload untouched; with a differing hash every
dependent field is cleared. -/
theorem C10_hash_gate_witness :
    handleUpload (fun _ => "h0") populatedSession [1, 2] = populatedSession ∧
    (handleUpload (fun _ => "h1") populatedSession [1, 2]).profile_data = none ∧
    (handleUpload (fun _ => "h1") populatedSession [1, 2]).video_url = none :=
  ⟨(C10_hash_gate (fun _ => "h0") populatedSession [1, 2]).1 rfl,
   ((C10_hash_gate (fun _ => "h1") populatedSession [1, 2]).2 (by decide)).2.1,
   ((C10_hash_gate (fun _ => "h1") populatedSession [1, 2]).2 (by decide)).2.2.2.2.2.2.1⟩

end EssenceMirror

namespace EssenceMirror

/-- C3: polling a job handle maps remote "Completed" to the completed local
state with the result locator joined from the output-bucket URI and the
job identifier's trailing path segment (the component marks the job
VIDEO_GENERATED with that url); remote "Failed" to the failed local state
carrying the remote failure message (component: VIDEO_GENERATION_FAILED);
any other remote status to the in-progress local state; and a raise of the
status-check call itself to the distinct terminal "ERROR" result carrying
the error message instead of a propagated exception. -/
theorem C3_poll_status_mapping (ji : JobInfo) (u m e : String)
    (r : AsyncInvokeResponse) :
    (r.status = some "Completed" → r.s3Uri = some u →
      (check_job_status ji.videoJobId (.ok r)).1 =
        { job_id := ji.videoJobId
          status := some "Completed"
          video_url := some (u ++ "/" ++ jobFolder ji.videoJobId ++ "/output.mp4")
          message := some "Personalized video generation completed successfully" } ∧
      check_video_status none ji (.ok r) =
        { ji with
            status := "VIDEO_GENERATED"
            videoUrl := some (u ++ "/" ++ jobFolder ji.videoJobId ++ "/output.mp4") }) ∧
    (r.status = some "Failed" → r.failureMessage = some m →
      (check_job_status ji.videoJobId (.ok r)).1 =
        { job_id := ji.videoJobId
          status := some "Failed"
          video_url := none
          message := some m } ∧
      check_video_status none ji (.ok r) =
        { ji with
            status := "VIDEO_GENERATION_FAILED"
            errorMessage := some m }) ∧
    (r.status ≠ some "Completed" → r.status ≠ some "Failed" →
      (check_job_status ji.videoJobId (.ok r)).1.status = r.status ∧
      (check_job_status ji.videoJobId (.ok r)).1.message =
        some "Personalized video generation in progress" ∧
      (check_video_status none ji (.ok r)).status =
        "VIDEO_GENERATION_IN_PROGRESS") ∧
    ((check_job_status ji.videoJobId (.error e)).1 =
      { job_id := ji.videoJobId
        status := some "ERROR"
        video_url := none
        message := some ("Error checking job status: " ++ e) }) := by
  refine ⟨?_, ?_, ?_, ?_⟩
  · intro hst hs3
    constructor
    · simp [check_job_status, hst, hs3]
    · simp [check_video_status, check_job_status, hst, hs3]
  · intro hst hmsg
    have hne : (some "Failed" : Option String) ≠ some "Completed" := by decide
    constructor
    · simp [check_job_status, hst, hmsg, hne]
    · simp [check_video_status, check_job_status, hst, hmsg, hne]
  · intro hnc hnf
    refine ⟨?_, ?_, ?_⟩
    · simp [check_job_status, hnc, hnf]
    · simp [check_job_status, hnc, hnf]
    · simp [check_video_status, check_job_status, hnc, hnf]
  · simp [check_job_status]

/-- Witness for C3: a completed remote job yields the joined locator; an
in-progress remote status maps to the component's in-progress state; a
raising status call yields the ERROR result. -/
theorem C3_poll_status_mapping_witness :
    (check_job_status witnessJob.videoJobId
        (.ok { status := some "Completed", s3Uri := some "s3://bucket/videos",
               failureMessage := none })).1 =
      { job_id := witnessJob.videoJobId
        status := some "Completed"
        video_url := some ("s3://bucket/videos" ++ "/" ++
          jobFolder witnessJob.videoJobId ++ "/output.mp4")
        message := some "Personalized video generation completed successfully" } ∧
    (check_video_status none witnessJob
        (.ok { status := some "InProgress", s3Uri := none,
               failureMessage := none })).status =
      "VIDEO_GENERATION_IN_PROGRESS" ∧
    (check_job_status witnessJob.videoJobId (.error "throttled")).1 =
      { job_id := witnessJob.videoJobId
        status := some "ERROR"
        video_url := none
        message := some ("Error checking job status: " ++ "throttled") } :=
  ⟨((C3_poll_status_mapping witnessJob "s3://bucket/videos" "" "throttled"
      { status := some "Completed", s3Uri := some "s3://bucket/videos",
        failureMessage := none }).1 rfl rfl).1,
   ((C3_poll_status_mapping witnessJob "" "" "throttled"
      { status := some "InProgress", s3Uri := none,
        failureMessage := none }).2.2.1 (by decide) (by decide)).2.2,
   (C3_poll_status_mapping witnessJob "" "" "throttled"
      { status := some "Completed", s3Uri := none,
        failureMessage := none }).2.2.2⟩

/-- Every branch of `check_job_status` performs exactly one remote call,
the status query itself — never a submission. -/
theorem check_job_status_trace (job_id : String)
    (remote : Except String AsyncInvokeResponse) :
    (check_job_status job_id remote).2 = [RemoteCall.getAsyncInvoke job_id] := by
  unfold check_job_status
  rcases remote with e | r
  · rfl
  · dsimp only
    split_ifs
    · cases r.s3Uri <;> rfl
    · rfl
    · rfl

/-- Each of `n` repeated polls against a fixed remote outcome is exactly the
single-poll result. -/
theorem pollRepeatedly_mem (n : Nat) (job_id : String)
    (remote : Except String AsyncInvokeResponse)
    (p : JobStatusResult × List RemoteCall)
    (hp : p ∈ pollRepeatedly n job_id remote) :
    p = check_job_status job_id remote := by
  induction n with
  | zero => simp [pollRepeatedly] at hp
  | succ k ih =>
      simp only [pollRepeatedly, List.mem_cons] at hp
      rcases hp with hp | hp
      · exact hp
      · exact ih hp

/-- Repeated polling against a fixed remote outcome replicates the
single-poll result. -/
theorem pollRepeatedly_const (n : Nat) (job_id : String)
    (remote : Except String AsyncInvokeResponse)
    (pr : JobStatusResult × List RemoteCall)
    (h : check_job_status job_id remote = pr) :
    pollRepeatedly n job_id remote = List.replicate n pr := by
  induction n with
  | zero => rfl
  | succ k ih => simp [pollRepeatedly, h, List.replicate, ih]

/-- C9: while the remote state of a handle stays fixed, every one of `n`
repeated polls returns the identical result and performs no re-submission
(`startAsyncInvoke` never appears in any call trace); in particular, for
each terminal remote state the repeated results are the same explicit pair
every time: remote "Completed" yields the identical (Completed, url) pair
with the url joined from the output-bucket URI and the job identifier's
trailing segment, remote "Failed" the identical Failed result with the same
carried failure message, and a raising status call the identical ERROR
result with the same error message. -/
theorem C9_poll_idempotent (job_id u m e : String) (r : AsyncInvokeResponse)
    (n : Nat) :
    (∀ remote : Except String AsyncInvokeResponse,
      ∀ p ∈ pollRepeatedly n job_id remote,
        p = check_job_status job_id remote ∧
        RemoteCall.startAsyncInvoke ∉ p.2) ∧
    (r.status = some "Completed" → r.s3Uri = some u →
      pollRepeatedly n job_id (.ok r) =
        List.replicate n
          ({ job_id := job_id
             status := some "Completed"
             video_url := some (u ++ "/" ++ jobFolder job_id ++ "/output.mp4")
             message := some "Personalized video generation completed successfully" },
           [RemoteCall.getAsyncInvoke job_id])) ∧
    (r.status = some "Failed" → r.failureMessage = some m →
      pollRepeatedly n job_id (.ok r) =
        List.replicate n
          ({ job_id := job_id
             status := some "Failed"
             video_url := none
             message := some m },
           [RemoteCall.getAsyncInvoke job_id])) ∧
    pollRepeatedly n job_id (.error e) =
      List.replicate n
        ({ job_id := job_id
           status := some "ERROR"
           video_url := none
           message := some ("Error checking job status: " ++ e) },
         [RemoteCall.getAsyncInvoke job_id]) := by
  refine ⟨?_, ?_, ?_, ?_⟩
  · intro remote p hp
    have hmem := pollRepeatedly_mem n job_id remote p hp
    refine ⟨hmem, ?_⟩
    rw [hmem, check_job_status_trace]
    simp
  · intro hst hs3
    refine pollRepeatedly_const n job_id (.ok r) _ ?_
    simp [check_job_status, hst, hs3]
  · intro hst hmsg
    refine pollRepeatedly_const n job_id (.ok r) _ ?_
    have hne : (some "Failed" : Option String) ≠ some "Completed" := by decide
    simp [check_job_status, hst, hmsg, hne]
  · refine pollRepeatedly_const n job_id (.error e) _ ?_
    simp [check_job_status]

end EssenceMirror

namespace EssenceMirror

/-- Witness for C9: three polls of a concrete job in each terminal remote
state — completed, failed, and a raising status call — all return the
identical explicit pair, and the poll of the first element of the completed
run performs no submission. -/
theorem C9_poll_idempotent_witness :
    (pollRepeatedly 3 witnessJob.videoJobId
        (.ok { status := some "Completed", s3Uri := some "s3://bucket/videos",
               failureMessage := none }) =
      List.replicate 3
        ({ job_id := witnessJob.videoJobId
           status := some "Completed"
           video_url := some ("s3://bucket/videos" ++ "/" ++
             jobFolder witnessJob.videoJobId ++ "/output.mp4")
           message := some "Personalized video generation completed successfully" },
         [RemoteCall.getAsyncInvoke witnessJob.videoJobId])) ∧
    (pollRepeatedly 3 witnessJob.videoJobId
        (.ok { status := some "Failed", s3Uri := none,
               failureMessage := some "quota exceeded" }) =
      List.replicate 3
        ({ job_id := witnessJob.videoJobId
           status := some "Failed"
           video_url := none
           message := some "quota exceeded" },
         [RemoteCall.getAsyncInvoke witnessJob.videoJobId])) ∧
    (pollRepeatedly 3 witnessJob.videoJobId (.error "throttled") =
      List.replicate 3
        ({ job_id := witnessJob.videoJobId
           status := some "ERROR"
           video_url := none
           message := some ("Error checking job status: " ++ "throttled") },
         [RemoteCall.getAsyncInvoke witnessJob.videoJobId])) ∧
    RemoteCall.startAsyncInvoke ∉
      (check_job_status witnessJob.videoJobId (.error "throttled")).2 :=
  ⟨(C9_poll_idempotent witnessJob.videoJobId "s3://bucket/videos"
      "quota exceeded" "throttled"
      { status := some "Completed", s3Uri := some "s3://bucket/videos",
        failureMessage := none } 3).2.1 rfl rfl,
   (C9_poll_idempotent witnessJob.videoJobId "s3://bucket/videos"
      "quota exceeded" "throttled"
      { status := some "Failed", s3Uri := none,
        failureMessage := some "quota exceeded" } 3).2.2.1 rfl rfl,
   (C9_poll_idempotent witnessJob.videoJobId "s3://bucket/videos"
      "quota exceeded" "throttled"
      { status := some "Completed", s3Uri := some "s3://bucket/videos",
        failureMessage := none } 3).2.2.2,
   ((C9_poll_idempotent witnessJob.videoJobId "s3://bucket/videos"
      "quota exceeded" "throttled"
      { status := some "Completed", s3Uri := some "s3://bucket/videos",
        failureMessage := none } 3).1 (.error "throttled")
      (check_job_status witnessJob.videoJobId (.error "throttled"))
      (List.mem_cons_self _ _)).2⟩

/-- C2 (counterexample): the narrative "she" contains, at word boundaries,
one female-indicator word and no male-indicator word, so the claim demands
gender "female"; the code instead counts the male indicator "he" as a
substring of "she", reaches a tie, and yields "unspecified". -/
theorem C2_word_boundary_counterexample :
    1 ≤ spec_word_boundary_count female_indicators "she" ∧
    spec_word_boundary_count male_indicators "she" = 0 ∧
    (parse_analysis_text "she").gender ≠ "female" ∧
    (parse_analysis_text "she").gender = "unspecified" :=
  ⟨by decide, by decide, by decide, by decide⟩

/-- C2 (amended): gender is determined by counting how many DISTINCT words
of each fixed indicator list occur as case-insensitive SUBSTRINGS of the
narrative (each indicator contributes at most one, and matches need no word
boundary); the majority wins and a tie — including zero/zero — yields
"unspecified".  In particular at least one male-indicator substring and no
female-indicator substring yields "male", and symmetrically. -/
theorem C2_substring_gender_amended (s : String) :
    (countIndicators male_indicators (lowerChars s) >
        countIndicators female_indicators (lowerChars s) →
      (parse_analysis_text s).gender = "male") ∧
    (countIndicators female_indicators (lowerChars s) >
        countIndicators male_indicators (lowerChars s) →
      (parse_analysis_text s).gender = "female") ∧
    (countIndicators male_indicators (lowerChars s) =
        countIndicators female_indicators (lowerChars s) →
      (parse_analysis_text s).gender = "unspecified") ∧
    (1 ≤ countIndicators male_indicators (lowerChars s) →
      countIndicators female_indicators (lowerChars s) = 0 →
      (parse_analysis_text s).gender = "male") ∧
    (1 ≤ countIndicators female_indicators (lowerChars s) →
      countIndicators male_indicators (lowerChars s) = 0 →
      (parse_analysis_text s).gender = "female") := by
  have hg : (parse_analysis_text s).gender = detectGender (lowerChars s) := rfl
  rw [hg]
  unfold detectGender
  refine ⟨?_, ?_, ?_, ?_, ?_⟩
  · intro h
    rw [if_pos h]
  · intro h
    rw [if_neg (by omega), if_pos h]
  · intro h
    rw [if_neg (by omega), if_neg (by omega)]
  · intro h1 h2
    rw [if_pos (by omega)]
  · intro h1 h2
    rw [if_neg (by omega), if_pos (by omega)]

/-- Witness for C2 (amended): "boy" has a male indicator and no female
indicator and parses as male; "lady" the converse; "she" ties (the male
substring "he" versus the female substring "she") and parses as
unspecified. -/
theorem C2_substring_gender_amended_witness :
    (parse_analysis_text "boy").gender = "male" ∧
    (parse_analysis_text "lady").gender = "female" ∧
    (parse_analysis_text "she").gender = "unspecified" :=
  ⟨(C2_substring_gender_amended "boy").2.2.2.1 (by decide) (by decide),
   (C2_substring_gender_amended "lady").2.2.2.2 (by decide) (by decide),
   (C2_substring_gender_amended "she").2.2.1 (by decide)⟩

/-- C4 (counterexample): `sendText("hello")` on a session on which `end()`
has run does not fail at all, let alone with a SessionClosed error: the
three internal sends swallow the closed-stream failures, the call returns
the success value `True`, and no event is transmitted.  (The repository
defines no SessionClosed error and `send_text_message` checks neither
`is_active` nor the stream.) -/
theorem C4_sendText_after_end_counterexample :
    (send_text_message (end_session liveSession) "hello").1 = true ∧
    (send_text_message (end_session liveSession) "hello").2.transmitted =
      (end_session liveSession).transmitted ∧
    (end_session liveSession).is_active = false :=
  ⟨rfl, rfl, rfl⟩

/-- C4 (amended): after `end()` on an active session the session is marked
inactive and its stream closed; a subsequent `sendText` does not raise — it
returns the success value `True` while transmitting nothing over the
transport — and the drain calls likewise never fail, returning the next
queued item or `None` on timeout. -/
theorem C4_closed_session_amended (s0 : SonicState) (msg : String)
    (h : s0.is_active = true) :
    (end_session s0).is_active = false ∧
    (end_session s0).stream_open = false ∧
    (send_text_message (end_session s0) msg).1 = true ∧
    (send_text_message (end_session s0) msg).2.transmitted =
      (end_session s0).transmitted ∧
    (get_response (end_session s0)).1 = (end_session s0).response_queue.head? ∧
    (get_audio_response (end_session s0)).1 = (end_session s0).audio_queue.head? := by
  have hact : ¬ (s0.is_active = false) := by simp [h]
  have hclosed : (end_session s0).stream_open = false := by
    unfold end_session
    rw [if_neg hact]
  have hinact : (end_session s0).is_active = false := by
    unfold end_session end_audio_input send_event
    rw [if_neg hact]
    dsimp only
    split_ifs <;> rfl
  refine ⟨hinact, hclosed, rfl, ?_, ?_, ?_⟩
  · simp [send_text_message, send_event, hclosed]
  · unfold get_response
    cases hq : (end_session s0).response_queue <;> simp [hq]
  · unfold get_audio_response
    cases hq : (end_session s0).audio_queue <;> simp [hq]

/-- Witness for C4 (amended): the freshly started session, ended and then
sent "hello". -/
theorem C4_closed_session_amended_witness :
    (end_session liveSession).is_active = false ∧
    (end_session liveSession).stream_open = false ∧
    (send_text_message (end_session liveSession) "hello").1 = true ∧
    (send_text_message (end_session liveSession) "hello").2.transmitted =
      (end_session liveSession).transmitted ∧
    (get_response (end_session liveSession)).1 =
      (end_session liveSession).response_queue.head? ∧
    (get_audio_response (end_session liveSession)).1 =
      (end_session liveSession).audio_queue.head? :=
  C4_closed_session_amended liveSession "hello" rfl

end EssenceMirror

namespace EssenceMirror

/-- C1 (counterexample): the same logical collage result, in the direct-dict
envelope versus the `responseBody.application/json.body` JSON-string
envelope (whose body string decodes to the identical body dict): the invoke
extracts the url from the first but returns nothing for the second, because
the dict-instance check precedes — and therefore shadows — the
`application/json` unwrapping branch. -/
theorem C1_collage_json_envelope_counterexample :
    (generate_style_collage collage_parse_example collage_direct_envelope).ret =
      some { url := some (.str "https://x/c.png"), base64 := none,
             prompt_used := none } ∧
    collage_parse_example "\x7b\"collage_url\": \"https://x/c.png\"\x7d" =
      some (.obj [("collage_url", .str "https://x/c.png")]) ∧
    (generate_style_collage collage_parse_example collage_json_envelope).ret =
      none :=
  ⟨rfl, rfl, rfl⟩

/-- C1 (amended): the recommendations invoker accepts both the direct
body-dict envelope and the `application/json` JSON-string envelope with the
same extracted result; the collage invoker accepts the direct body-dict
envelope, but a dict-shaped `responseBody` wrapping an `application/json`
JSON-string body is NOT unwrapped (the `isinstance(dict)` branch takes the
wrapper itself as the body), so the collage invoke returns no result there
even when the body string decodes to the same collage fields. -/
theorem C1_envelope_shapes_amended (parse : String → Option JValue)
    (s t : String) (R U : JValue)
    (hrec : parse s = some (.obj [("recommendations", R)]))
    (_hcol : parse t = some (.obj [("collage_url", U)])) :
    generate_recommendations_direct parse
        (.obj [("response", .obj [("responseBody",
           .obj [("recommendations", R)])])]) =
      { ret := some R, surfaced := [] } ∧
    generate_recommendations_direct parse
        (.obj [("response", .obj [("responseBody",
           .obj [("application/json", .obj [("body", .str s)])])])]) =
      { ret := some R, surfaced := [] } ∧
    generate_style_collage parse
        (.obj [("response", .obj [("responseBody",
           .obj [("collage_url", U)])])]) =
      { ret := some { url := some U, base64 := none, prompt_used := none }
        surfaced := [] } ∧
    generate_style_collage parse
        (.obj [("response", .obj [("responseBody",
           .obj [("application/json", .obj [("body", .str t)])])])]) =
      { ret := none, surfaced := [] } := by
  refine ⟨rfl, ?_, rfl, rfl⟩
  · show (match (parse s).bind (fun body_content =>
        (body_content.hasKey "recommendations").bind (fun hasRecs2 =>
          if hasRecs2 then
            (body_content.lookup "recommendations").bind (fun recs =>
              some { ret := some recs, surfaced := [] })
          else
            (body_content.hasKey "error").bind (fun hasErr =>
              if hasErr then
                (body_content.lookup "error").bind (fun ev =>
                  some { ret := none, surfaced := [.remoteError ev] })
              else
                recsTail (.obj [("response", .obj [("responseBody",
                  .obj [("application/json", .obj [("body", .str s)])])])])))) with
      | some r => r
      | none => { ret := none, surfaced := [.exception] }) =
      { ret := some R, surfaced := [] }
    rw [hrec]
    rfl

/-- Witness for C1 (amended): the concrete `witness_parse`, on the body
strings "rbody" and "cbody". -/
theorem C1_envelope_shapes_amended_witness :
    generate_recommendations_direct witness_parse
        (.obj [("response", .obj [("responseBody",
           .obj [("recommendations", .arr [.str "linen blazer"])])])]) =
      { ret := some (.arr [.str "linen blazer"]), surfaced := [] } ∧
    generate_recommendations_direct witness_parse
        (.obj [("response", .obj [("responseBody",
           .obj [("application/json", .obj [("body", .str "rbody")])])])]) =
      { ret := some (.arr [.str "linen blazer"]), surfaced := [] } ∧
    generate_style_collage witness_parse
        (.obj [("response", .obj [("responseBody",
           .obj [("collage_url", .str "https://x/c.png")])])]) =
      { ret := some { url := some (.str "https://x/c.png"), base64 := none,
                      prompt_used := none }
        surfaced := [] } ∧
    generate_style_collage witness_parse
        (.obj [("response", .obj [("responseBody",
           .obj [("application/json", .obj [("body", .str "cbody")])])])]) =
      { ret := none, surfaced := [] } :=
  C1_envelope_shapes_amended witness_parse "rbody" "cbody"
    (.arr [.str "linen blazer"]) (.str "https://x/c.png") rfl rfl

/-- C6 (counterexample): on the payload of example scenario 3 — the direct
dict shape with an `error` key — the invoke does not fail with an
application error carrying "model unavailable": it surfaces nothing at all
and silently returns `None`. -/
theorem C6_direct_error_counterexample :
    (generate_recommendations_direct (fun _ => none) error_direct_envelope).ret =
      none ∧
    (generate_recommendations_direct (fun _ => none) error_direct_envelope).surfaced =
      [] :=
  ⟨rfl, rfl⟩

/-- C6 (amended): an `error` key in the unwrapped body is recognized and its
remote message surfaced as an application-level failure only when the body
arrives in the `application/json` JSON-string shape; in the direct dict
shape the error key is never inspected and the invoke returns `None` with
no message surfaced.  In both cases no recommendation set (partial or
otherwise) is produced. -/
theorem C6_error_handling_amended (parse : String → Option JValue)
    (s : String) (e msg : JValue)
    (hp : parse s = some (.obj [("error", e)])) :
    generate_recommendations_direct parse
        (.obj [("response", .obj [("responseBody",
           .obj [("application/json", .obj [("body", .str s)])])])]) =
      { ret := none, surfaced := [.remoteError e] } ∧
    generate_recommendations_direct parse
        (.obj [("response", .obj [("responseBody", .obj [("error", msg)])])]) =
      { ret := none, surfaced := [] } := by
  refine ⟨?_, rfl⟩
  · show (match (parse s).bind (fun body_content =>
        (body_content.hasKey "recommendations").bind (fun hasRecs2 =>
          if hasRecs2 then
            (body_content.lookup "recommendations").bind (fun recs =>
              some { ret := some recs, surfaced := [] })
          else
            (body_content.hasKey "error").bind (fun hasErr =>
              if hasErr then
                (body_content.lookup "error").bind (fun ev =>
                  some { ret := none, surfaced := [.remoteError ev] })
              else
                recsTail (.obj [("response", .obj [("responseBody",
                  .obj [("application/json", .obj [("body", .str s)])])])])))) with
      | some r => r
      | none => { ret := none, surfaced := [.exception] }) =
      { ret := none, surfaced := [.remoteError e] }
    rw [hp]
    rfl

/-- Witness for C6 (amended): `witness_parse` on the body string "ebody",
which decodes to the error body with message "model unavailable". -/
theorem C6_error_handling_amended_witness :
    generate_recommendations_direct witness_parse
        (.obj [("response", .obj [("responseBody",
           .obj [("application/json", .obj [("body", .str "ebody")])])])]) =
      { ret := none, surfaced := [.remoteError (.str "model unavailable")] } ∧
    generate_recommendations_direct witness_parse
        (.obj [("response", .obj [("responseBody",
           .obj [("error", .str "model unavailable")])])]) =
      { ret := none, surfaced := [] } :=
  C6_error_handling_amended witness_parse "ebody" (.str "model unavailable")
    (.str "model unavailable") rfl

end EssenceMirror

